import Mathlib

/-!
Shallow embedding of the OAuth2 authorization-code broker in
`backend/app.py`: environment/startup checks, the `/start-oauth` route,
the `/callback` route (GET and POST shapes), the credential upsert, and
the `refresh_access_token` utility.

Conventions of the embedding:
  * Python values read with `os.getenv`, `request.args.get`, `dict.get`
    or `session.get` are `Option String` (`none` = absent, i.e. Python
    `None`).
  * Python truthiness of such a value (`if not x`) is `pyTruthy`:
    `none` and `some ""` are falsy.
  * The provider's HTTP token endpoint is an oracle argument of type
    `Option TokenResponse`; `none` models a transport-level exception
    (caught by the route's `except` block), `some r` a response with
    status code `r.status_code` and JSON-object body `r.body`
    (a string-valued field map, read with `jsonGet` = Python `.get`).
  * The mutable per-request world is `ServerState`: the session's
    `oauth_state` slot and the `amazon_sellers` table as a list of rows.
  * `datetime.utcnow` is an oracle argument `now : Nat`.
-/

namespace App

/-- Python truthiness of an optional string: `None` and `""` are falsy. -/
def pyTruthy : Option String → Bool
  | none => false
  | some s => !(s == "")

/-- The result of `os.getenv` for each configuration variable read at
module load (`backend/app.py` lines 16, 23-26). -/
structure Env where
  lwa_app_id : Option String
  lwa_client_secret : Option String
  redirect_uri : Option String
  database_url : Option String
  flask_secret_key : Option String
deriving DecidableEq, Repr

/-- The configuration the process runs with once module load succeeded.
`secret_key` keeps the unchecked result of `os.getenv("FLASK_SECRET_KEY")`
(line 16): the source assigns it without any presence check. -/
structure Config where
  lwa_app_id : String
  lwa_client_secret : String
  redirect_uri : String
  database_url : String
  secret_key : Option String
deriving DecidableEq, Repr

/-- Module-level startup (`backend/app.py` lines 16-33): assign
`app.secret_key`, then raise if the three LWA credentials are missing,
then raise if `DATABASE_URL` is missing.  `FLASK_SECRET_KEY` is never
checked. -/
def startup (env : Env) : Except String Config :=
  if !pyTruthy env.lwa_app_id || !pyTruthy env.lwa_client_secret
      || !pyTruthy env.redirect_uri then
    .error "Amazon SP-API credentials are missing. Check your environment variables."
  else if !pyTruthy env.database_url then
    .error "Database URL is missing. Ensure DATABASE_URL is set in your environment variables."
  else
    .ok { lwa_app_id := env.lwa_app_id.getD ""
          lwa_client_secret := env.lwa_client_secret.getD ""
          redirect_uri := env.redirect_uri.getD ""
          database_url := env.database_url.getD ""
          secret_key := env.flask_secret_key }

/-- One row of the `amazon_sellers` table (`backend/app.py` lines 58-64).
`refresh_token` is declared `db.Column(db.Text, nullable=False)`, so a
committed row always carries a string value: an attempt to commit `None`
(the value `token_data.get("refresh_token")` yields when the provider
omits the field) violates the NOT NULL constraint and makes
`db.session.commit()` raise, persisting nothing.  `created_at` is the
`datetime.utcnow` default, set only when the row is inserted. -/
structure AmazonSeller where
  selling_partner_id : String
  refresh_token : String
  created_at : Nat
deriving DecidableEq, Repr

/-- The mutable state a request handler can touch: the caller's session
slot `session['oauth_state']` and the `amazon_sellers` table. -/
structure ServerState where
  oauth_state : Option String
  sellers : List AmazonSeller
deriving DecidableEq, Repr

/-- A JSON response from the provider's token endpoint: its HTTP status
and its body as a string-valued field map. -/
structure TokenResponse where
  status_code : Nat
  body : List (String × String)
deriving DecidableEq, Repr

/-- Python `dict.get(key)` on a JSON object body: first binding of the
key, `None` when absent. -/
def jsonGet (body : List (String × String)) (key : String) : Option String :=
  (body.find? (fun kv => kv.1 == key)).map (fun kv => kv.2)

/-- The JSON body a route returns, flattened to the keys the routes use:
`error`, `message`, `auth_code`, `details`; plus the HTTP status code. -/
structure Response where
  status : Nat
  error : Option String
  message : Option String
  auth_code : Option String
  details : Option (List (String × String))
deriving DecidableEq, Repr

/-- A 400/500 body `{'error': msg}`. -/
def errorResponse (status : Nat) (msg : String) : Response :=
  ⟨status, some msg, none, none, none⟩

/-- HTTP method of a `/callback` request (the route accepts GET and POST). -/
inductive Method where
  | GET
  | POST
deriving DecidableEq, Repr

/-- The three request fields `handle_callback` extracts: from query
parameters on GET (`spapi_oauth_code`, `state`, `selling_partner_id`),
from the JSON body on POST (`code`, `state`, `selling_partner_id`).
Each is `Option String` since `.get` yields `None` when absent. -/
structure CallbackInput where
  method : Method
  code : Option String
  state : Option String
  selling_partner_id : Option String
deriving DecidableEq, Repr

/-- `existing_seller.refresh_token = refresh_token`: overwrite the
`refresh_token` of the first row matching `selling_partner_id` (the row
`.first()` returned). -/
def updateFirstSeller (pid : String) (rt : String) :
    List AmazonSeller → List AmazonSeller
  | [] => []
  | s :: rest =>
    if s.selling_partner_id == pid then { s with refresh_token := rt } :: rest
    else s :: updateFirstSeller pid rt rest

/-- The save block of the POST branch (`backend/app.py` lines 172-182):
look up the seller by `selling_partner_id`; if found overwrite its
`refresh_token`, else insert a new row whose `created_at` defaults to
the current time. -/
def upsertSeller (sellers : List AmazonSeller) (pid : String)
    (rt : String) (now : Nat) : List AmazonSeller :=
  match sellers.find? (fun s => s.selling_partner_id == pid) with
  | some _ => updateFirstSeller pid rt sellers
  | none => sellers ++ [⟨pid, rt, now⟩]

/-- `handle_callback` (`backend/app.py` lines 102-187).  GET: validate
state, then required fields, then echo the auth code.  POST: validate
identically, then exchange the code at the provider's token endpoint
(the `provider` oracle; `none` = transport exception caught by the
route's `except`, producing a 500), reject non-200 provider responses
with the provider body under `details`, else upsert the seller row and
report success.  When `token_data.get("refresh_token")` is `None` (the
200 body lacks the field), `db.session.commit()` raises against the
`nullable=False` column: the route's `except` turns that into a 500 and
nothing is persisted.  Returns the response and the state after the
request. -/
def handle_callback (inp : CallbackInput) (provider : Option TokenResponse)
    (now : Nat) (st : ServerState) : Response × ServerState :=
  match inp.method with
  | .GET =>
    if inp.state ≠ st.oauth_state then
      (errorResponse 400 "Invalid state parameter in GET request", st)
    else if !pyTruthy inp.code || !pyTruthy inp.state
        || !pyTruthy inp.selling_partner_id then
      (errorResponse 400 "Missing required parameters in GET request", st)
    else
      (⟨200, none, some "GET request successful", inp.code, none⟩, st)
  | .POST =>
    if inp.state ≠ st.oauth_state then
      (errorResponse 400 "Invalid state parameter in POST request", st)
    else if !pyTruthy inp.code || !pyTruthy inp.state
        || !pyTruthy inp.selling_partner_id then
      (errorResponse 400 "Missing required parameters in POST request", st)
    else
      match provider with
      | none => (errorResponse 500 "An error occurred", st)
      | some tr =>
        if tr.status_code ≠ 200 then
          (⟨400, some "Failed to exchange authorization code", none, none,
            some tr.body⟩, st)
        else
          match jsonGet tr.body "refresh_token" with
          | none => (errorResponse 500 "An error occurred", st)
          | some refresh_token =>
            let pid := inp.selling_partner_id.getD ""
            (⟨200, none, some "Authorization successful", none, none⟩,
             { st with sellers := upsertSeller st.sellers pid refresh_token now })

/-- The authorization URL built by `start_oauth` (`backend/app.py`
lines 83-89): plain string concatenation, no URL-encoding. -/
def amazon_auth_url (cfg : Config) (state : String) : String :=
  "https://sellercentral.amazon.com.mx/apps/authorize/consent"
    ++ "?application_id=" ++ cfg.lwa_app_id
    ++ "&state=" ++ state
    ++ "&version=beta"
    ++ "&redirect_uri=" ++ cfg.redirect_uri

/-- The redirect `start_oauth` answers with. -/
structure RedirectResponse where
  status : Nat
  location : String
deriving DecidableEq, Repr

/-- `start_oauth` (`backend/app.py` lines 71-97): bind the freshly
generated nonce (the `nonce` oracle, `str(uuid.uuid4())` in the source)
into `session['oauth_state']` and redirect to the authorization URL. -/
def start_oauth (cfg : Config) (nonce : String) (st : ServerState) :
    RedirectResponse × ServerState :=
  ({ status := 302, location := amazon_auth_url cfg nonce },
   { st with oauth_state := some nonce })

/-- `refresh_access_token` (`backend/app.py` lines 207-227): POST the
refresh token to the provider (oracle; `none` = transport exception,
caught, yielding `None`); on non-200 return `None`, on 200 return
`token_data.get("access_token")`.  The function performs no database
operation, so it is modelled as also returning the (unchanged) server
state to make that frame condition statable. -/
def refresh_access_token (refresh_token : String)
    (provider : Option TokenResponse) (st : ServerState) :
    Option String × ServerState :=
  match provider with
  | none => (none, st)
  | some r =>
    if r.status_code ≠ 200 then (none, st)
    else (jsonGet r.body "access_token", st)

/-!
A small observer for URLs: split off the query string at the first `?`,
split it into chunks at `&`, and read each chunk as `key=value` at its
first `=`.  This is used only to STATE what query parameters the
authorization URL carries; the URL itself is built by `amazon_auth_url`
exactly as the source concatenates it.
-/

/-- Split a character list at the first occurrence of `c`: the part
before it, and (when `c` occurs) the part after it. -/
def splitFirst (c : Char) : List Char → List Char × Option (List Char)
  | [] => ([], none)
  | x :: xs =>
    if x = c then ([], some xs)
    else
      let r := splitFirst c xs
      (x :: r.1, r.2)

/-- Split a character list at every occurrence of `c`. -/
def splitOn (c : Char) : List Char → List (List Char)
  | [] => [[]]
  | x :: xs =>
    let r := splitOn c xs
    if x = c then [] :: r
    else (x :: r.headI) :: r.tail

/-- The query string of a URL: everything after the first `?`. -/
def queryChars (url : String) : Option (List Char) :=
  (splitFirst '?' url.data).2

/-- The endpoint part of a URL: everything before the first `?`. -/
def urlEndpoint (url : String) : String :=
  String.mk (splitFirst '?' url.data).1

/-- The value of query parameter `key` in `url`: the first
`&`-separated chunk of the query string whose part before its first `=`
is `key`, read after that `=`. -/
def getQueryParam (url : String) (key : String) : Option String :=
  match queryChars url with
  | none => none
  | some q =>
    match (splitOn '&' q).find? (fun kv => (splitFirst '=' kv).1 == key.data) with
    | none => none
    | some kv => ((splitFirst '=' kv).2).map String.mk

theorem splitFirst_not_mem {c : Char} {a : List Char} (h : c ∉ a) :
    splitFirst c a = (a, none) := by
  induction a with
  | nil => rfl
  | cons x xs ih =>
    simp only [List.mem_cons, not_or] at h
    simp [splitFirst, Ne.symm h.1, ih h.2]

theorem splitFirst_append {c : Char} {a b : List Char} (h : c ∉ a) :
    splitFirst c (a ++ c :: b) = (a, some b) := by
  induction a with
  | nil => simp [splitFirst]
  | cons x xs ih =>
    simp only [List.mem_cons, not_or] at h
    simp [splitFirst, Ne.symm h.1, ih h.2]

theorem splitOn_not_mem {c : Char} {a : List Char} (h : c ∉ a) :
    splitOn c a = [a] := by
  induction a with
  | nil => rfl
  | cons x xs ih =>
    simp only [List.mem_cons, not_or] at h
    simp [splitOn, Ne.symm h.1, ih h.2]

theorem splitOn_append {c : Char} {a b : List Char} (h : c ∉ a) :
    splitOn c (a ++ c :: b) = a :: splitOn c b := by
  induction a with
  | nil => simp [splitOn]
  | cons x xs ih =>
    simp only [List.mem_cons, not_or] at h
    simp [splitOn, Ne.symm h.1, ih h.2]

/-!  Theorems about the embedded routes.  -/

/-- C1: For every callback request (GET or POST), `handle_callback`
answers with a 400 status whenever the supplied `state` differs from the
session-bound nonce (byte-exact `Option String` equality), and also
whenever no nonce is bound in the session at all. -/
theorem callback_rejects_state_mismatch_and_unbound_nonce
    (inp : CallbackInput) (provider : Option TokenResponse) (now : Nat)
    (st : ServerState) :
    (inp.state ≠ st.oauth_state →
      (handle_callback inp provider now st).1.status = 400) ∧
    (st.oauth_state = none →
      (handle_callback inp provider now st).1.status = 400) := by
  obtain ⟨m, code, stt, pid⟩ := inp
  constructor
  · intro h
    cases m <;> simp_all [handle_callback, errorResponse]
  · intro h
    cases m <;> cases stt <;>
      simp_all [handle_callback, errorResponse, pyTruthy]

theorem callback_rejects_state_mismatch_and_unbound_nonce_witness :
    (handle_callback ⟨.GET, some "abc", some "X", some "P1"⟩ none 0
        ⟨some "Y", []⟩).1.status = 400 ∧
    (handle_callback ⟨.POST, some "abc", some "Y", some "P1"⟩ none 0
        ⟨none, []⟩).1.status = 400 :=
  ⟨(callback_rejects_state_mismatch_and_unbound_nonce
      ⟨.GET, some "abc", some "X", some "P1"⟩ none 0 ⟨some "Y", []⟩).1
      (by decide),
   (callback_rejects_state_mismatch_and_unbound_nonce
      ⟨.POST, some "abc", some "Y", some "P1"⟩ none 0 ⟨none, []⟩).2 rfl⟩

/-- C2: state validation strictly precedes required-field validation and
the token exchange: any request whose `state` mismatches the bound nonce
is answered with the state error for its method — never with the
missing-field error — the server state is untouched, and the outcome does
not depend on the provider oracle (no exchange is attempted). -/
theorem state_check_precedes_field_check_and_exchange
    (inp : CallbackInput) (p p2 : Option TokenResponse) (now now2 : Nat)
    (st : ServerState) (h : inp.state ≠ st.oauth_state) :
    (handle_callback inp p now st).1
      = errorResponse 400 (match inp.method with
          | .GET => "Invalid state parameter in GET request"
          | .POST => "Invalid state parameter in POST request") ∧
    (handle_callback inp p now st).1.error
      ≠ some "Missing required parameters in GET request" ∧
    (handle_callback inp p now st).1.error
      ≠ some "Missing required parameters in POST request" ∧
    (handle_callback inp p now st).2 = st ∧
    handle_callback inp p now st = handle_callback inp p2 now2 st := by
  obtain ⟨m, code, stt, pid⟩ := inp
  cases m <;> simp_all [handle_callback, errorResponse]

theorem state_check_precedes_field_check_and_exchange_witness :
    (handle_callback ⟨.POST, none, some "X", none⟩ none 0
        ⟨some "Y", []⟩).1
      = errorResponse 400 "Invalid state parameter in POST request" :=
  (state_check_precedes_field_check_and_exchange
    ⟨.POST, none, some "X", none⟩ none none 0 0 ⟨some "Y", []⟩
    (by decide)).1

/-- C8 (amended): the process starts exactly when the application client
id, the client secret, the redirect URI and the database connection
string are all present and non-empty; the session-signing secret
(`FLASK_SECRET_KEY`) is never checked and does not prevent startup. -/
theorem startup_ok_iff_required_config_present (env : Env) :
    (startup env).toOption.isSome
      = (pyTruthy env.lwa_app_id && pyTruthy env.lwa_client_secret
          && pyTruthy env.redirect_uri && pyTruthy env.database_url) := by
  cases h1 : pyTruthy env.lwa_app_id <;>
    cases h2 : pyTruthy env.lwa_client_secret <;>
      cases h3 : pyTruthy env.redirect_uri <;>
        cases h4 : pyTruthy env.database_url <;>
          simp [startup, h1, h2, h3, h4, Except.toOption]

/-- C8 (counterexample): with the four checked variables set but the
session-signing secret entirely absent from the environment, startup
succeeds — the process does not refuse to start. -/
theorem startup_ignores_missing_session_secret :
    (⟨some "amzn-app", some "shhh", some "https://cb.example", some "postgres://db",
        none⟩ : Env).flask_secret_key = none ∧
    startup ⟨some "amzn-app", some "shhh", some "https://cb.example",
        some "postgres://db", none⟩
      = .ok ⟨"amzn-app", "shhh", "https://cb.example", "postgres://db", none⟩ :=
  ⟨rfl, rfl⟩

/-- C9: `refresh_access_token` never touches the seller store; on a
200-status provider response it returns exactly the `access_token` field
of the JSON body, and whenever it returns an access token the provider
did respond (no transport error) with status 200 — so any non-200 status
or transport error yields `none`. -/
theorem refresh_access_token_pure_and_status_gated
    (refresh_token : String) (provider : Option TokenResponse)
    (st : ServerState) :
    (refresh_access_token refresh_token provider st).2 = st ∧
    (∀ r, provider = some r → r.status_code = 200 →
      (refresh_access_token refresh_token provider st).1
        = jsonGet r.body "access_token") ∧
    ((refresh_access_token refresh_token provider st).1 ≠ none →
      ∃ r, provider = some r ∧ r.status_code = 200) := by
  refine ⟨?_, ?_, ?_⟩
  · cases provider with
    | none => rfl
    | some r =>
      by_cases h : r.status_code = 200 <;>
        simp [refresh_access_token, h]
  · rintro r rfl h
    simp [refresh_access_token, h]
  · intro h
    cases provider with
    | none => simp [refresh_access_token] at h
    | some r =>
      by_cases h200 : r.status_code = 200
      · exact ⟨r, rfl, h200⟩
      · simp [refresh_access_token, h200] at h

theorem refresh_access_token_pure_and_status_gated_witness :
    (refresh_access_token "RT" (some ⟨200, [("access_token", "AT")]⟩)
        ⟨none, []⟩).1
      = jsonGet [("access_token", "AT")] "access_token" :=
  (refresh_access_token_pure_and_status_gated "RT"
      (some ⟨200, [("access_token", "AT")]⟩) ⟨none, []⟩).2.1
    ⟨200, [("access_token", "AT")]⟩ rfl rfl

/-- Helper: `handle_callback` leaves the session slot untouched on every
path. -/
theorem handle_callback_oauth_state (inp : CallbackInput)
    (p : Option TokenResponse) (now : Nat) (st : ServerState) :
    (handle_callback inp p now st).2.oauth_state = st.oauth_state := by
  obtain ⟨m, code, stt, pid⟩ := inp
  cases m
  · simp only [handle_callback]
    split
    · rfl
    · split
      · rfl
      · rfl
  · simp only [handle_callback]
    split
    · rfl
    · split
      · rfl
      · cases p with
        | none => rfl
        | some tr =>
          dsimp only
          split
          · rfl
          · split <;> rfl

/-- Helper: when the supplied state equals the bound nonce, the response
is never the invalid-state error (for either method). -/
theorem handle_callback_error_on_match (inp : CallbackInput)
    (p : Option TokenResponse) (now : Nat) (st : ServerState)
    (h : inp.state = st.oauth_state) :
    (handle_callback inp p now st).1.error
        ≠ some "Invalid state parameter in GET request" ∧
    (handle_callback inp p now st).1.error
        ≠ some "Invalid state parameter in POST request" := by
  obtain ⟨m, code, stt, pid⟩ := inp
  simp only at h
  subst h
  cases m
  · simp only [handle_callback, ne_eq, not_true_eq_false, not_false_eq_true,
      if_false, reduceIte]
    split <;> simp [errorResponse]
  · simp only [handle_callback, ne_eq, not_true_eq_false, not_false_eq_true,
      if_false, reduceIte]
    split
    · simp [errorResponse]
    · cases p with
      | none => simp [errorResponse]
      | some tr =>
        dsimp only
        split
        · simp [errorResponse]
        · split <;> simp [errorResponse]

/-- C10: `handle_callback` never removes or rebinds the session-bound
nonce, whatever the request, provider response or prior state; hence a
repeated callback carrying the same (matching) state value passes the
state check again — its response is never the invalid-state error.  Only
`start_oauth` writes the slot. -/
theorem callback_never_rebinds_nonce
    (inp : CallbackInput) (p p2 : Option TokenResponse) (now now2 : Nat)
    (st : ServerState) :
    (handle_callback inp p now st).2.oauth_state = st.oauth_state ∧
    (inp.state = st.oauth_state →
      (handle_callback inp p2 now2 (handle_callback inp p now st).2).1.error
          ≠ some "Invalid state parameter in GET request" ∧
      (handle_callback inp p2 now2 (handle_callback inp p now st).2).1.error
          ≠ some "Invalid state parameter in POST request") ∧
    (∀ cfg nonce, (start_oauth cfg nonce st).2.oauth_state = some nonce) := by
  refine ⟨handle_callback_oauth_state inp p now st, ?_, fun cfg nonce => rfl⟩
  intro h
  exact handle_callback_error_on_match inp p2 now2 _
    (by rw [handle_callback_oauth_state]; exact h)

theorem callback_never_rebinds_nonce_witness :
    (handle_callback ⟨.POST, some "c", some "X", some "P"⟩
        (some ⟨200, [("refresh_token", "RT")]⟩) 5 ⟨some "X", []⟩).2.oauth_state
      = some "X" ∧
    (handle_callback ⟨.POST, some "c", some "X", some "P"⟩
        (some ⟨200, [("refresh_token", "RT")]⟩) 6
        ((handle_callback ⟨.POST, some "c", some "X", some "P"⟩
            (some ⟨200, [("refresh_token", "RT")]⟩) 5 ⟨some "X", []⟩).2)).1.error
      ≠ some "Invalid state parameter in POST request" :=
  ⟨(callback_never_rebinds_nonce ⟨.POST, some "c", some "X", some "P"⟩
      (some ⟨200, [("refresh_token", "RT")]⟩)
      (some ⟨200, [("refresh_token", "RT")]⟩) 5 6 ⟨some "X", []⟩).1,
   ((callback_never_rebinds_nonce ⟨.POST, some "c", some "X", some "P"⟩
      (some ⟨200, [("refresh_token", "RT")]⟩)
      (some ⟨200, [("refresh_token", "RT")]⟩) 5 6 ⟨some "X", []⟩).2.1 rfl).2⟩

/-- Helper: a search that fails on the first list continues on the second. -/
theorem find?_append_of_eq_none {α : Type} {p : α → Bool} {l1 l2 : List α}
    (h : l1.find? p = none) : (l1 ++ l2).find? p = l2.find? p := by
  induction l1 with
  | nil => rfl
  | cons x xs ih =>
    by_cases hx : p x
    · rw [List.find?_cons_of_pos _ hx] at h
      exact absurd h (by simp)
    · rw [List.find?_cons_of_neg _ (by simpa using hx)] at h
      rw [List.cons_append, List.find?_cons_of_neg _ (by simpa using hx)]
      exact ih h

/-- Helper: overwriting the token of the first matching row leaves the
rows before the match untouched. -/
theorem updateFirstSeller_append {pid : String} {rt : String}
    {l1 l2 : List AmazonSeller}
    (h : ∀ s ∈ l1, (s.selling_partner_id == pid) = false) :
    updateFirstSeller pid rt (l1 ++ l2) = l1 ++ updateFirstSeller pid rt l2 := by
  induction l1 with
  | nil => rfl
  | cons x xs ih =>
    have hx := h x (by simp)
    rw [List.cons_append, updateFirstSeller, if_neg (by simp [hx])]
    rw [ih (fun s hs => h s (by simp [hs])), List.cons_append]

/-- Helper: if some row matches `pid`, then after overwriting the first
match the first row found for `pid` carries exactly the new token and
its old `created_at`. -/
theorem find?_updateFirstSeller {pid : String} {rt : String}
    {sellers : List AmazonSeller}
    (h : sellers.find? (fun s => s.selling_partner_id == pid) ≠ none) :
    ∃ t, (updateFirstSeller pid rt sellers).find?
        (fun s => s.selling_partner_id == pid) = some ⟨pid, rt, t⟩ := by
  induction sellers with
  | nil => simp [List.find?] at h
  | cons s rest ih =>
    by_cases hs : (s.selling_partner_id == pid) = true
    · have hpid : s.selling_partner_id = pid := by simpa using hs
      refine ⟨s.created_at, ?_⟩
      rw [updateFirstSeller, if_pos hs]
      rw [List.find?_cons_of_pos _ (by simpa using hs)]
      simp [hpid]
    · have hrest : rest.find? (fun s => s.selling_partner_id == pid) ≠ none := by
        rw [List.find?_cons_of_neg _ (by simpa using hs)] at h
        exact h
      obtain ⟨t, ht⟩ := ih hrest
      refine ⟨t, ?_⟩
      rw [updateFirstSeller, if_neg (by simp [eq_false_of_ne_true hs])]
      rw [List.find?_cons_of_neg _ (by simpa using hs)]
      exact ht

/-- Helper: after an upsert for `pid`, the first row found for `pid`
carries exactly the upserted token (its `created_at` is some prior or
current timestamp). -/
theorem find?_upsertSeller (sellers : List AmazonSeller) (pid : String)
    (rt : String) (now : Nat) :
    ∃ t, (upsertSeller sellers pid rt now).find?
        (fun s => s.selling_partner_id == pid) = some ⟨pid, rt, t⟩ := by
  cases hfind : sellers.find? (fun s => s.selling_partner_id == pid) with
  | none =>
    refine ⟨now, ?_⟩
    unfold upsertSeller
    rw [hfind]
    dsimp only
    rw [find?_append_of_eq_none hfind]
    simp [List.find?]
  | some s0 =>
    have h : sellers.find? (fun s => s.selling_partner_id == pid) ≠ none := by
      simp [hfind]
    obtain ⟨t, ht⟩ := @find?_updateFirstSeller pid rt sellers h
    refine ⟨t, ?_⟩
    unfold upsertSeller
    rw [hfind]
    dsimp only
    exact ht

/-- C4: a POST callback that passes state and required-field validation
but meets a non-200 provider response is answered with status 400, the
provider's JSON payload under the `details` key, and the server state —
session and seller store alike — is unchanged. -/
theorem exchange_failure_passthrough_no_write
    (code stt pid : String) (tr : TokenResponse) (now : Nat)
    (st : ServerState) (hstate : st.oauth_state = some stt)
    (hc : code ≠ "") (hs : stt ≠ "") (hp : pid ≠ "")
    (h200 : tr.status_code ≠ 200) :
    handle_callback ⟨.POST, some code, some stt, some pid⟩ (some tr) now st
      = (⟨400, some "Failed to exchange authorization code", none, none,
          some tr.body⟩, st) := by
  simp [handle_callback, hstate, pyTruthy, hc, hs, hp, h200]

theorem exchange_failure_passthrough_no_write_witness :
    handle_callback ⟨.POST, some "abc", some "X", some "P1"⟩
        (some ⟨403, [("error", "invalid_grant")]⟩) 9 ⟨some "X", []⟩
      = (⟨400, some "Failed to exchange authorization code", none, none,
          some [("error", "invalid_grant")]⟩, ⟨some "X", []⟩) :=
  exchange_failure_passthrough_no_write "abc" "X" "P1"
    ⟨403, [("error", "invalid_grant")]⟩ 9 ⟨some "X", []⟩ rfl
    (by decide) (by decide) (by decide) (by decide)

/-- C5 (counterexample): with a valid POST callback and a 200 provider
response whose body lacks `refresh_token`, the route does NOT store a
sentinel and succeed — it raises: the response is the 500 error body and
the seller store stays empty.  (`db.session.commit()` rejects the `None`
value against the `nullable=False` column; the route's `except` turns
the raise into a 500.) -/
theorem missing_refresh_token_not_stored_counterexample :
    (handle_callback ⟨.POST, some "abc", some "X", some "P1"⟩
        (some ⟨200, [("access_token", "AT")]⟩) 4 ⟨some "X", []⟩).1
      = errorResponse 500 "An error occurred" ∧
    ((handle_callback ⟨.POST, some "abc", some "X", some "P1"⟩
        (some ⟨200, [("access_token", "AT")]⟩) 4 ⟨some "X", []⟩).2).sellers
      = [] :=
  ⟨rfl, rfl⟩

/-- C5 (amended): on a 200 provider response whose JSON body has no
`refresh_token` field, the commit of the `None` value is rejected by the
NOT NULL constraint on the `refresh_token` column: the route answers 500
with an error body and neither writes nor updates any seller row. -/
theorem missing_refresh_token_commit_raises
    (code stt pid : String) (body : List (String × String)) (now : Nat)
    (st : ServerState) (hstate : st.oauth_state = some stt)
    (hc : code ≠ "") (hs : stt ≠ "") (hp : pid ≠ "")
    (hmiss : jsonGet body "refresh_token" = none) :
    handle_callback ⟨.POST, some code, some stt, some pid⟩
        (some ⟨200, body⟩) now st
      = (errorResponse 500 "An error occurred", st) := by
  simp [handle_callback, hstate, pyTruthy, hc, hs, hp, hmiss]

theorem missing_refresh_token_commit_raises_witness :
    handle_callback ⟨.POST, some "ac", some "Y", some "P2"⟩
        (some ⟨200, [("token_type", "bearer")]⟩) 11 ⟨some "Y", []⟩
      = (errorResponse 500 "An error occurred", ⟨some "Y", []⟩) :=
  missing_refresh_token_commit_raises "ac" "Y" "P2"
    [("token_type", "bearer")] 11 ⟨some "Y", []⟩ rfl
    (by decide) (by decide) (by decide) (by decide)

/-- C6: a GET callback that passes state and required-field validation
is answered 200 with the supplied authorization code echoed under
`auth_code`, the server state (seller store and session) is returned
unchanged, and the outcome is independent of the provider oracle — no
token exchange is performed. -/
theorem get_callback_read_only
    (code stt pid : String) (p p2 : Option TokenResponse) (now now2 : Nat)
    (st : ServerState) (hstate : st.oauth_state = some stt)
    (hc : code ≠ "") (hs : stt ≠ "") (hp : pid ≠ "") :
    handle_callback ⟨.GET, some code, some stt, some pid⟩ p now st
      = (⟨200, none, some "GET request successful", some code, none⟩, st) ∧
    handle_callback ⟨.GET, some code, some stt, some pid⟩ p now st
      = handle_callback ⟨.GET, some code, some stt, some pid⟩ p2 now2 st := by
  have h : ∀ (q : Option TokenResponse) (n : Nat),
      handle_callback ⟨.GET, some code, some stt, some pid⟩ q n st
        = (⟨200, none, some "GET request successful", some code, none⟩, st) := by
    intro q n
    simp [handle_callback, hstate, pyTruthy, hc, hs, hp]
  exact ⟨h p now, by rw [h p now, h p2 now2]⟩

theorem get_callback_read_only_witness :
    handle_callback ⟨.GET, some "abc", some "X", some "P1"⟩ none 0 ⟨some "X", []⟩
      = (⟨200, none, some "GET request successful", some "abc", none⟩,
         ⟨some "X", []⟩) :=
  (get_callback_read_only "abc" "X" "P1" none none 0 0 ⟨some "X", []⟩ rfl
    (by decide) (by decide) (by decide)).1

/-- C3: starting from a store with no row for `pid`, two successful POST
exchanges for the same `pid` whose provider responses carry refresh
tokens `rt1` then `rt2` leave exactly one row for `pid`: its
`refresh_token` is the second (most recent) value and its `created_at`
is the timestamp of the first insert. -/
theorem exchange_twice_single_record_latest_token
    (st : ServerState) (nonce code1 code2 pid rt1 rt2 : String) (t1 t2 : Nat)
    (hnonce : st.oauth_state = some nonce)
    (hn : nonce ≠ "") (hc1 : code1 ≠ "") (hc2 : code2 ≠ "") (hp : pid ≠ "")
    (hfresh : ∀ s ∈ st.sellers, s.selling_partner_id ≠ pid) :
    ((handle_callback ⟨.POST, some code2, some nonce, some pid⟩
        (some ⟨200, [("refresh_token", rt2)]⟩) t2
        (handle_callback ⟨.POST, some code1, some nonce, some pid⟩
          (some ⟨200, [("refresh_token", rt1)]⟩) t1 st).2).2).sellers.filter
      (fun s => s.selling_partner_id == pid) = [⟨pid, rt2, t1⟩] := by
  have hbeq : ∀ s ∈ st.sellers, (s.selling_partner_id == pid) = false := by
    intro s hs
    simpa using hfresh s hs
  have hfind : st.sellers.find? (fun s => s.selling_partner_id == pid) = none :=
    List.find?_eq_none.mpr (fun s hs => by simp [hbeq s hs])
  have hjson1 : jsonGet [("refresh_token", rt1)] "refresh_token" = some rt1 := by
    simp [jsonGet, List.find?]
  have hjson2 : jsonGet [("refresh_token", rt2)] "refresh_token" = some rt2 := by
    simp [jsonGet, List.find?]
  have e1 : (handle_callback ⟨.POST, some code1, some nonce, some pid⟩
      (some ⟨200, [("refresh_token", rt1)]⟩) t1 st).2
      = ⟨st.oauth_state, st.sellers ++ [⟨pid, rt1, t1⟩]⟩ := by
    simp [handle_callback, hnonce, pyTruthy, hc1, hn, hp, hjson1,
      upsertSeller, hfind]
  rw [e1]
  have hfind1 : (st.sellers ++ [⟨pid, rt1, t1⟩] : List AmazonSeller).find?
      (fun s => s.selling_partner_id == pid) = some ⟨pid, rt1, t1⟩ := by
    rw [find?_append_of_eq_none hfind]
    simp [List.find?]
  have e2 : (handle_callback ⟨.POST, some code2, some nonce, some pid⟩
      (some ⟨200, [("refresh_token", rt2)]⟩) t2
      ⟨st.oauth_state, st.sellers ++ [⟨pid, rt1, t1⟩]⟩).2
      = ⟨st.oauth_state, st.sellers ++ [⟨pid, rt2, t1⟩]⟩ := by
    simp only [handle_callback, hnonce, pyTruthy, hjson2, upsertSeller,
      Option.getD_some]
    rw [if_neg (by simp), if_neg (by simp [hc2, hn, hp])]
    rw [if_neg (by simp)]
    dsimp only
    rw [hfind1]
    dsimp only
    rw [updateFirstSeller_append hbeq]
    simp [updateFirstSeller]
  rw [e2]
  rw [List.filter_append]
  have hnil : st.sellers.filter (fun s => s.selling_partner_id == pid) = [] :=
    List.filter_eq_nil_iff.mpr (fun s hs => by simp [hbeq s hs])
  rw [hnil]
  simp [List.filter]

theorem exchange_twice_single_record_latest_token_witness :
    ((handle_callback ⟨.POST, some "c2", some "X", some "P1"⟩
        (some ⟨200, [("refresh_token", "R2")]⟩) 7
        (handle_callback ⟨.POST, some "c1", some "X", some "P1"⟩
          (some ⟨200, [("refresh_token", "R1")]⟩) 3
          ⟨some "X", []⟩).2).2).sellers.filter
      (fun s => s.selling_partner_id == "P1") = [⟨"P1", "R2", 3⟩] :=
  exchange_twice_single_record_latest_token ⟨some "X", []⟩ "X" "c1" "c2"
    "P1" "R1" "R2" 3 7 rfl (by decide) (by decide) (by decide) (by decide)
    (by simp)

/-- Helper: the character shape of the authorization URL. -/
theorem amazon_auth_url_data (cfg : Config) (state : String) :
    (amazon_auth_url cfg state).data
      = "https://sellercentral.amazon.com.mx/apps/authorize/consent".data
          ++ '?' :: ("application_id=".data ++ cfg.lwa_app_id.data
          ++ '&' :: ("state=".data ++ state.data
          ++ '&' :: ("version=beta".data
          ++ '&' :: ("redirect_uri=".data ++ cfg.redirect_uri.data)))) := by
  simp only [amazon_auth_url, String.data_append, List.append_assoc]
  rfl

/-- Helper: the authorization URL parses back into exactly the four
query parameters the source embeds, provided none of the interpolated
values contains the separator `&` (the source does no URL-encoding). -/
theorem amazon_auth_url_params (cfg : Config) (state : String)
    (hA : '&' ∉ cfg.lwa_app_id.data) (hN : '&' ∉ state.data)
    (hU : '&' ∉ cfg.redirect_uri.data) :
    getQueryParam (amazon_auth_url cfg state) "application_id"
        = some cfg.lwa_app_id ∧
    getQueryParam (amazon_auth_url cfg state) "state" = some state ∧
    getQueryParam (amazon_auth_url cfg state) "version" = some "beta" ∧
    getQueryParam (amazon_auth_url cfg state) "redirect_uri"
        = some cfg.redirect_uri ∧
    urlEndpoint (amazon_auth_url cfg state)
        = "https://sellercentral.amazon.com.mx/apps/authorize/consent" := by
  have hurl := amazon_auth_url_data cfg state
  have hq : queryChars (amazon_auth_url cfg state)
      = some ("application_id=".data ++ cfg.lwa_app_id.data
          ++ '&' :: ("state=".data ++ state.data
          ++ '&' :: ("version=beta".data
          ++ '&' :: ("redirect_uri=".data ++ cfg.redirect_uri.data)))) := by
    unfold queryChars
    rw [hurl, splitFirst_append (by decide)]
  have hm1 : '&' ∉ "application_id=".data ++ cfg.lwa_app_id.data := by
    intro hmem
    rcases List.mem_append.mp hmem with h | h
    · exact absurd h (by decide)
    · exact hA h
  have hm2 : '&' ∉ "state=".data ++ state.data := by
    intro hmem
    rcases List.mem_append.mp hmem with h | h
    · exact absurd h (by decide)
    · exact hN h
  have hm4 : '&' ∉ "redirect_uri=".data ++ cfg.redirect_uri.data := by
    intro hmem
    rcases List.mem_append.mp hmem with h | h
    · exact absurd h (by decide)
    · exact hU h
  have hsplit : splitOn '&' ("application_id=".data ++ cfg.lwa_app_id.data
      ++ '&' :: ("state=".data ++ state.data
      ++ '&' :: ("version=beta".data
      ++ '&' :: ("redirect_uri=".data ++ cfg.redirect_uri.data))))
      = ["application_id=".data ++ cfg.lwa_app_id.data,
         "state=".data ++ state.data,
         "version=beta".data,
         "redirect_uri=".data ++ cfg.redirect_uri.data] := by
    rw [splitOn_append hm1, splitOn_append hm2,
      splitOn_append (by decide), splitOn_not_mem hm4]
  have hc1 : splitFirst '=' ("application_id=".data ++ cfg.lwa_app_id.data)
      = ("application_id".data, some cfg.lwa_app_id.data) := by
    have e : "application_id=".data = "application_id".data ++ ['='] := by decide
    rw [e, List.append_assoc, List.singleton_append]
    exact splitFirst_append (by decide)
  have hc2 : splitFirst '=' ("state=".data ++ state.data)
      = ("state".data, some state.data) := by
    have e : "state=".data = "state".data ++ ['='] := by decide
    rw [e, List.append_assoc, List.singleton_append]
    exact splitFirst_append (by decide)
  have hc3 : splitFirst '=' "version=beta".data
      = ("version".data, some "beta".data) := by decide
  have hc4 : splitFirst '=' ("redirect_uri=".data ++ cfg.redirect_uri.data)
      = ("redirect_uri".data, some cfg.redirect_uri.data) := by
    have e : "redirect_uri=".data = "redirect_uri".data ++ ['='] := by decide
    rw [e, List.append_assoc, List.singleton_append]
    exact splitFirst_append (by decide)
  refine ⟨?_, ?_, ?_, ?_, ?_⟩
  · unfold getQueryParam
    rw [hq]
    dsimp only
    rw [hsplit]
    rw [List.find?_cons_of_pos _ (by simp only [hc1]; decide)]
    dsimp only
    rw [hc1]
    rfl
  · unfold getQueryParam
    rw [hq]
    dsimp only
    rw [hsplit]
    rw [List.find?_cons_of_neg _ (by simp only [hc1]; decide)]
    rw [List.find?_cons_of_pos _ (by simp only [hc2]; decide)]
    dsimp only
    rw [hc2]
    rfl
  · unfold getQueryParam
    rw [hq]
    dsimp only
    rw [hsplit]
    rw [List.find?_cons_of_neg _ (by simp only [hc1]; decide)]
    rw [List.find?_cons_of_neg _ (by simp only [hc2]; decide)]
    rw [List.find?_cons_of_pos _ (by simp only [hc3]; decide)]
    dsimp only
    rw [hc3]
    rfl
  · unfold getQueryParam
    rw [hq]
    dsimp only
    rw [hsplit]
    rw [List.find?_cons_of_neg _ (by simp only [hc1]; decide)]
    rw [List.find?_cons_of_neg _ (by simp only [hc2]; decide)]
    rw [List.find?_cons_of_neg _ (by simp only [hc3]; decide)]
    rw [List.find?_cons_of_pos _ (by simp only [hc4]; decide)]
    dsimp only
    rw [hc4]
    rfl
  · unfold urlEndpoint
    rw [hurl, splitFirst_append (by decide)]

/-- C7: `start_oauth` binds the freshly generated nonce in the session
slot, and the redirect URL's `state` query parameter equals that bound
nonce; the URL also carries the configured application identifier, the
fixed `version=beta` marker and the configured redirect URI as query
parameters on the provider's authorization endpoint (assuming, as the
source does, that no interpolated value contains a literal `&`). -/
theorem start_oauth_url_params_and_session (cfg : Config) (nonce : String)
    (st : ServerState)
    (hA : '&' ∉ cfg.lwa_app_id.data) (hN : '&' ∉ nonce.data)
    (hU : '&' ∉ cfg.redirect_uri.data) :
    (start_oauth cfg nonce st).2.oauth_state = some nonce ∧
    getQueryParam (start_oauth cfg nonce st).1.location "state" = some nonce ∧
    getQueryParam (start_oauth cfg nonce st).1.location "application_id"
        = some cfg.lwa_app_id ∧
    getQueryParam (start_oauth cfg nonce st).1.location "version"
        = some "beta" ∧
    getQueryParam (start_oauth cfg nonce st).1.location "redirect_uri"
        = some cfg.redirect_uri ∧
    urlEndpoint (start_oauth cfg nonce st).1.location
        = "https://sellercentral.amazon.com.mx/apps/authorize/consent" ∧
    (start_oauth cfg nonce st).1.status = 302 := by
  obtain ⟨h1, h2, h3, h4, h5⟩ := amazon_auth_url_params cfg nonce hA hN hU
  exact ⟨rfl, h2, h1, h3, h4, h5, rfl⟩

theorem start_oauth_url_params_and_session_witness :
    (start_oauth ⟨"app-123", "sec", "https://cb.example/r", "db", some "k"⟩
        "X-1" ⟨none, []⟩).2.oauth_state = some "X-1" ∧
    getQueryParam (start_oauth ⟨"app-123", "sec", "https://cb.example/r",
        "db", some "k"⟩ "X-1" ⟨none, []⟩).1.location "state" = some "X-1" ∧
    getQueryParam (start_oauth ⟨"app-123", "sec", "https://cb.example/r",
        "db", some "k"⟩ "X-1" ⟨none, []⟩).1.location "application_id"
        = some "app-123" ∧
    getQueryParam (start_oauth ⟨"app-123", "sec", "https://cb.example/r",
        "db", some "k"⟩ "X-1" ⟨none, []⟩).1.location "version" = some "beta" ∧
    getQueryParam (start_oauth ⟨"app-123", "sec", "https://cb.example/r",
        "db", some "k"⟩ "X-1" ⟨none, []⟩).1.location "redirect_uri"
        = some "https://cb.example/r" ∧
    urlEndpoint (start_oauth ⟨"app-123", "sec", "https://cb.example/r",
        "db", some "k"⟩ "X-1" ⟨none, []⟩).1.location
        = "https://sellercentral.amazon.com.mx/apps/authorize/consent" ∧
    (start_oauth ⟨"app-123", "sec", "https://cb.example/r", "db", some "k"⟩
        "X-1" ⟨none, []⟩).1.status = 302 :=
  start_oauth_url_params_and_session
    ⟨"app-123", "sec", "https://cb.example/r", "db", some "k"⟩ "X-1"
    ⟨none, []⟩ (by decide) (by decide) (by decide)

end App
